import Mathlib

/-!
Verification of the smartscan signal-scoring engine and its freshness-aware
retrieval cache.  Python floats are modelled as exact rationals; every score
the engine produces is a finite sum of the literal weights, so the model is
faithful on all quantities the theorems mention.
-/

namespace SmartScan

/-- One fully populated indicator row (the fields `get_signal_strength` in
`src/analysis/technical_indicators.py` reads).  Pandas stores them as floats;
we model them as rationals. -/
structure Row where
  Close : ℚ
  SMA_20 : ℚ
  SMA_50 : ℚ
  ADX : ℚ
  DI_plus : ℚ
  DI_minus : ℚ
  RSI : ℚ
  MACD : ℚ
  MACD_Signal : ℚ
  VI_plus : ℚ
  VI_minus : ℚ
  Volume_Ratio : ℚ
  CMF : ℚ
  S1 : ℚ
  R1 : ℚ
  ATR : ℚ
deriving DecidableEq

/-- Trend block of `get_signal_strength`: close > SMA20 > SMA50 gives +1.5,
close < SMA20 < SMA50 gives -1.5, otherwise 0. -/
def trendContrib (r : Row) : ℚ :=
  if r.Close > r.SMA_20 ∧ r.SMA_20 > r.SMA_50 then 3/2
  else if r.Close < r.SMA_20 ∧ r.SMA_20 < r.SMA_50 then -(3/2)
  else 0

/-- ADX block: only when ADX > 25, +1 if DI+ > DI-, else -1. -/
def adxContrib (r : Row) : ℚ :=
  if r.ADX > 25 then (if r.DI_plus > r.DI_minus then 1 else -1) else 0

/-- RSI block: RSI < 30 gives +1, RSI > 70 gives -1, otherwise 0. -/
def rsiContrib (r : Row) : ℚ :=
  if r.RSI < 30 then 1 else if r.RSI > 70 then -1 else 0

/-- MACD block: +1 if MACD > its signal line, else -1 (no neutral zone). -/
def macdContrib (r : Row) : ℚ :=
  if r.MACD > r.MACD_Signal then 1 else -1

/-- Vortex block: +0.5 if VI+ > VI-, else -0.5. -/
def vortexContrib (r : Row) : ℚ :=
  if r.VI_plus > r.VI_minus then 1/2 else -(1/2)

/-- Running total after the five additive blocks (code lines up to the
volume/money-flow step). -/
def strength5 (r : Row) : ℚ :=
  trendContrib r + adxContrib r + rsiContrib r + macdContrib r + vortexContrib r

/-- Running total after the volume / money-flow amplifier:
if Volume_Ratio > 1.5 and CMF > 0 then strength is multiplied by 1.2 when
positive and by 0.8 otherwise. -/
def strength6 (r : Row) : ℚ :=
  if r.Volume_Ratio > 3/2 ∧ r.CMF > 0 then
    (if strength5 r > 0 then strength5 r * (6/5) else strength5 r * (4/5))
  else strength5 r

/-- Support/resistance block: close < S1 gives +0.5, close > R1 gives -0.5. -/
def srContrib (r : Row) : ℚ :=
  if r.Close < r.S1 then 1/2 else if r.Close > r.R1 then -(1/2) else 0

/-- Running total after the support/resistance step. -/
def strength7 (r : Row) : ℚ :=
  strength6 r + srContrib r

/-- `get_signal_strength` from `technical_indicators.py`: the composition of
all steps, ending with the ATR volatility dampener (multiply by 0.8 when
ATR / close > 0.02). -/
def get_signal_strength (r : Row) : ℚ :=
  if r.ATR / r.Close > 1/50 then strength7 r * (4/5) else strength7 r

/-- The category assignment of `generate_signals`: the signal column starts
at Hold and each condition of the `conditions` dict overwrites it in dict
order. -/
def signalFor (s : ℚ) : String :=
  let sig := "Hold"
  let sig := if s > 5/2 then "Strong Buy" else sig
  let sig := if 1 < s ∧ s ≤ 5/2 then "Buy" else sig
  let sig := if -1 ≤ s ∧ s ≤ 1 then "Hold" else sig
  let sig := if s < -1 ∧ -(5/2) ≤ s then "Sell" else sig
  if s < -(5/2) then "Strong Sell" else sig

lemma signalFor_eq_strong_buy (s : ℚ) (h : 5/2 < s) : signalFor s = "Strong Buy" := by
  unfold signalFor
  rw [if_neg (show ¬s < -(5/2) by push_neg; linarith),
    if_neg (show ¬(s < -1 ∧ -(5/2) ≤ s) by push_neg; intro u; linarith),
    if_neg (show ¬(-1 ≤ s ∧ s ≤ 1) by push_neg; intro u; linarith),
    if_neg (show ¬(1 < s ∧ s ≤ 5/2) by push_neg; intro u; linarith),
    if_pos (show s > 5/2 from h)]

lemma signalFor_eq_buy (s : ℚ) (h1 : 1 < s) (h2 : s ≤ 5/2) : signalFor s = "Buy" := by
  unfold signalFor
  rw [if_neg (show ¬s < -(5/2) by push_neg; linarith),
    if_neg (show ¬(s < -1 ∧ -(5/2) ≤ s) by push_neg; intro u; linarith),
    if_neg (show ¬(-1 ≤ s ∧ s ≤ 1) by push_neg; intro u; linarith),
    if_pos ⟨h1, h2⟩]

lemma signalFor_eq_hold (s : ℚ) (h1 : -1 ≤ s) (h2 : s ≤ 1) : signalFor s = "Hold" := by
  unfold signalFor
  rw [if_neg (show ¬s < -(5/2) by push_neg; linarith),
    if_neg (show ¬(s < -1 ∧ -(5/2) ≤ s) by push_neg; intro u; linarith),
    if_pos ⟨h1, h2⟩]

lemma signalFor_eq_sell (s : ℚ) (h1 : -(5/2) ≤ s) (h2 : s < -1) : signalFor s = "Sell" := by
  unfold signalFor
  rw [if_neg (show ¬s < -(5/2) by push_neg; exact h1), if_pos ⟨h2, h1⟩]

lemma signalFor_eq_strong_sell (s : ℚ) (h : s < -(5/2)) : signalFor s = "Strong Sell" := by
  unfold signalFor
  rw [if_pos h]

/-- C1: a row with close > SMA20 > SMA50, ADX ≤ 25, RSI in [30,70],
MACD ≤ signal, VI+ ≤ VI-, no volume amplification, close between S1 and R1
and ATR/close ≤ 0.02 scores exactly 0 = 1.5 - 1.0 - 0.5 and is categorised
Hold. -/
theorem C1_neutral_row_scores_zero_hold (r : Row)
    (h1 : r.SMA_20 < r.Close) (h2 : r.SMA_50 < r.SMA_20)
    (h3 : r.ADX ≤ 25) (h4 : 30 ≤ r.RSI) (h5 : r.RSI ≤ 70)
    (h6 : r.MACD ≤ r.MACD_Signal) (h7 : r.VI_plus ≤ r.VI_minus)
    (h8 : r.Volume_Ratio ≤ 3/2 ∨ r.CMF ≤ 0)
    (h9 : r.S1 ≤ r.Close) (h10 : r.Close ≤ r.R1)
    (h11 : r.ATR / r.Close ≤ 1/50) :
    get_signal_strength r = 0 ∧ signalFor (get_signal_strength r) = "Hold" := by
  have ht : trendContrib r = 3/2 := by unfold trendContrib; rw [if_pos ⟨h1, h2⟩]
  have ha : adxContrib r = 0 := by unfold adxContrib; rw [if_neg (not_lt.mpr h3)]
  have hr : rsiContrib r = 0 := by
    unfold rsiContrib; rw [if_neg (not_lt.mpr h4), if_neg (not_lt.mpr h5)]
  have hm : macdContrib r = -1 := by unfold macdContrib; rw [if_neg (not_lt.mpr h6)]
  have hv : vortexContrib r = -(1/2) := by
    unfold vortexContrib; rw [if_neg (not_lt.mpr h7)]
  have h5s : strength5 r = 0 := by
    unfold strength5; rw [ht, ha, hr, hm, hv]; norm_num
  have h6s : strength6 r = 0 := by
    unfold strength6
    rw [if_neg]
    · exact h5s
    · rintro ⟨hvr, hcmf⟩
      rcases h8 with h | h
      · exact absurd hvr (not_lt.mpr h)
      · exact absurd hcmf (not_lt.mpr h)
  have hsr : srContrib r = 0 := by
    unfold srContrib; rw [if_neg (not_lt.mpr h9), if_neg (not_lt.mpr h10)]
  have h7s : strength7 r = 0 := by unfold strength7; rw [h6s, hsr]; norm_num
  have hfin : get_signal_strength r = 0 := by
    unfold get_signal_strength; rw [if_neg (not_lt.mpr h11)]; exact h7s
  refine ⟨hfin, ?_⟩
  rw [hfin]
  exact signalFor_eq_hold 0 (by norm_num) (by norm_num)

/-- Concrete neutral row used to witness C1. -/
def c1row : Row :=
  ⟨100, 90, 80, 20, 0, 0, 50, 1, 2, 1, 2, 1, 0, 90, 110, 1⟩

/-- Witness for C1 at a concrete neutral row. -/
theorem C1_neutral_row_scores_zero_hold_witness :
    get_signal_strength c1row = 0 ∧ signalFor (get_signal_strength c1row) = "Hold" :=
  C1_neutral_row_scores_zero_hold c1row (by norm_num [c1row]) (by norm_num [c1row])
    (by norm_num [c1row]) (by norm_num [c1row]) (by norm_num [c1row])
    (by norm_num [c1row]) (by norm_num [c1row]) (Or.inl (by norm_num [c1row]))
    (by norm_num [c1row]) (by norm_num [c1row]) (by norm_num [c1row])

/-- C2: the category thresholds of `generate_signals` are exhaustive and
non-overlapping on the rationals: the assigned category is one of the five
strings, each category is assumed exactly on its stated half-open interval,
and in particular 1 and -1 map to Hold and -2.5 maps to Sell. -/
theorem C2_categories_partition (s : ℚ) :
    (signalFor s = "Strong Buy" ∨ signalFor s = "Buy" ∨ signalFor s = "Hold" ∨
      signalFor s = "Sell" ∨ signalFor s = "Strong Sell") ∧
    (signalFor s = "Strong Buy" ↔ 5/2 < s) ∧
    (signalFor s = "Buy" ↔ 1 < s ∧ s ≤ 5/2) ∧
    (signalFor s = "Hold" ↔ -1 ≤ s ∧ s ≤ 1) ∧
    (signalFor s = "Sell" ↔ -(5/2) ≤ s ∧ s < -1) ∧
    (signalFor s = "Strong Sell" ↔ s < -(5/2)) ∧
    signalFor (1 : ℚ) = "Hold" ∧ signalFor (-1 : ℚ) = "Hold" ∧
    signalFor (-(5/2) : ℚ) = "Sell" := by
  have k1 : signalFor (1 : ℚ) = "Hold" := signalFor_eq_hold 1 (by norm_num) (by norm_num)
  have k2 : signalFor (-1 : ℚ) = "Hold" := signalFor_eq_hold (-1) (by norm_num) (by norm_num)
  have k3 : signalFor (-(5/2) : ℚ) = "Sell" :=
    signalFor_eq_sell (-(5/2)) (by norm_num) (by norm_num)
  by_cases c1 : 5/2 < s
  · rw [signalFor_eq_strong_buy s c1]
    refine ⟨Or.inl rfl, iff_of_true rfl c1, iff_of_false (by decide) ?_,
      iff_of_false (by decide) ?_, iff_of_false (by decide) ?_,
      iff_of_false (by decide) ?_, k1, k2, k3⟩
    all_goals first | (rintro ⟨u, v⟩; linarith) | (intro u; linarith)
  · by_cases c2 : 1 < s
    · rw [signalFor_eq_buy s c2 (not_lt.mp c1)]
      refine ⟨Or.inr (Or.inl rfl), iff_of_false (by decide) c1,
        iff_of_true rfl ⟨c2, not_lt.mp c1⟩, iff_of_false (by decide) ?_,
        iff_of_false (by decide) ?_, iff_of_false (by decide) ?_, k1, k2, k3⟩
      all_goals first | (rintro ⟨u, v⟩; linarith) | (intro u; linarith)
    · by_cases c3 : -1 ≤ s
      · rw [signalFor_eq_hold s c3 (not_lt.mp c2)]
        refine ⟨Or.inr (Or.inr (Or.inl rfl)), iff_of_false (by decide) ?_,
          iff_of_false (by decide) ?_, iff_of_true rfl ⟨c3, not_lt.mp c2⟩,
          iff_of_false (by decide) ?_, iff_of_false (by decide) ?_, k1, k2, k3⟩
        all_goals first | (rintro ⟨u, v⟩; linarith) | (intro u; linarith)
      · by_cases c4 : -(5/2) ≤ s
        · rw [signalFor_eq_sell s c4 (not_le.mp c3)]
          refine ⟨Or.inr (Or.inr (Or.inr (Or.inl rfl))), iff_of_false (by decide) ?_,
            iff_of_false (by decide) ?_, iff_of_false (by decide) ?_,
            iff_of_true rfl ⟨c4, not_le.mp c3⟩, iff_of_false (by decide) ?_, k1, k2, k3⟩
          all_goals first | (rintro ⟨u, v⟩; linarith) | (intro u; linarith)
        · rw [signalFor_eq_strong_sell s (not_le.mp c4)]
          refine ⟨Or.inr (Or.inr (Or.inr (Or.inr rfl))), iff_of_false (by decide) ?_,
            iff_of_false (by decide) ?_, iff_of_false (by decide) ?_,
            iff_of_false (by decide) ?_, iff_of_true rfl (not_le.mp c4), k1, k2, k3⟩
          all_goals first | (rintro ⟨u, v⟩; linarith) | (intro u; linarith)

/-- C4: the volume/money-flow amplifier multiplies the running total by 1.2
when it is positive and by 0.8 otherwise, hence never decreases it, and rows
not meeting both trigger conditions pass through unchanged. -/
theorem C4_amplifier_never_decreases (r : Row) :
    (r.Volume_Ratio > 3/2 ∧ r.CMF > 0 →
      strength6 r =
        (if strength5 r > 0 then strength5 r * (6/5) else strength5 r * (4/5)) ∧
      strength5 r ≤ strength6 r) ∧
    (¬(r.Volume_Ratio > 3/2 ∧ r.CMF > 0) → strength6 r = strength5 r) := by
  constructor
  · intro h
    have he : strength6 r =
        (if strength5 r > 0 then strength5 r * (6/5) else strength5 r * (4/5)) := by
      unfold strength6; rw [if_pos h]
    refine ⟨he, ?_⟩
    rw [he]
    by_cases hs : strength5 r > 0
    · rw [if_pos hs]; linarith
    · rw [if_neg hs]; push_neg at hs; linarith
  · intro h; unfold strength6; rw [if_neg h]

/-- Bearish high-volume row used to witness C4 (amplifier fires on S ≤ 0). -/
def c4rowAmp : Row :=
  ⟨80, 90, 100, 30, 1, 2, 80, 1, 2, 1, 2, 2, 1, 70, 110, 1⟩

/-- Low-volume row used to witness C4 (amplifier does not fire). -/
def c4rowQuiet : Row :=
  ⟨80, 90, 100, 30, 1, 2, 80, 1, 2, 1, 2, 1, 1, 70, 110, 1⟩

/-- Witness for C4: the amplifier branch at a concrete bearish high-volume
row and the pass-through branch at a concrete low-volume row. -/
theorem C4_amplifier_never_decreases_witness :
    (strength6 c4rowAmp =
      (if strength5 c4rowAmp > 0 then strength5 c4rowAmp * (6/5)
        else strength5 c4rowAmp * (4/5)) ∧
      strength5 c4rowAmp ≤ strength6 c4rowAmp) ∧
    strength6 c4rowQuiet = strength5 c4rowQuiet :=
  ⟨(C4_amplifier_never_decreases c4rowAmp).1 (by norm_num [c4rowAmp]),
    (C4_amplifier_never_decreases c4rowQuiet).2 (by norm_num [c4rowQuiet])⟩

/-!
Rows with missing data.  A missing indicator value in a pandas row is NaN
(or, for a column absent for leading rows, NaN as well); every comparison
against NaN is false, and arithmetic on NaN propagates.  We model a possibly
missing float as an Option: comparisons with a missing operand are false,
division with a missing operand is missing.
-/

/-- NaN-aware strict greater-than of the pandas row values. -/
def optGt (a b : Option ℚ) : Bool :=
  match a, b with
  | some x, some y => decide (x > y)
  | _, _ => false

/-- NaN-aware strict less-than. -/
def optLt (a b : Option ℚ) : Bool := optGt b a

/-- NaN-propagating division (a zero divisor also yields a non-finite value,
which no comparison in the scorer treats as a number). -/
def optDiv (a b : Option ℚ) : Option ℚ :=
  match a, b with
  | some x, some y => if y = 0 then none else some (x / y)
  | _, _ => none

/-- An indicator row in which any field may be missing. -/
structure ORow where
  Close : Option ℚ
  SMA_20 : Option ℚ
  SMA_50 : Option ℚ
  ADX : Option ℚ
  DI_plus : Option ℚ
  DI_minus : Option ℚ
  RSI : Option ℚ
  MACD : Option ℚ
  MACD_Signal : Option ℚ
  VI_plus : Option ℚ
  VI_minus : Option ℚ
  Volume_Ratio : Option ℚ
  CMF : Option ℚ
  S1 : Option ℚ
  R1 : Option ℚ
  ATR : Option ℚ
deriving DecidableEq

/-- Trend block of `get_signal_strength` on a row with possibly missing
values. -/
def trendContribO (r : ORow) : ℚ :=
  if optGt r.Close r.SMA_20 && optGt r.SMA_20 r.SMA_50 then 3/2
  else if optLt r.Close r.SMA_20 && optLt r.SMA_20 r.SMA_50 then -(3/2)
  else 0

/-- ADX block on a row with possibly missing values. -/
def adxContribO (r : ORow) : ℚ :=
  if optGt r.ADX (some 25) then (if optGt r.DI_plus r.DI_minus then 1 else -1) else 0

/-- RSI block on a row with possibly missing values. -/
def rsiContribO (r : ORow) : ℚ :=
  if optLt r.RSI (some 30) then 1 else if optGt r.RSI (some 70) then -1 else 0

/-- MACD block on a row with possibly missing values. -/
def macdContribO (r : ORow) : ℚ :=
  if optGt r.MACD r.MACD_Signal then 1 else -1

/-- Vortex block on a row with possibly missing values. -/
def vortexContribO (r : ORow) : ℚ :=
  if optGt r.VI_plus r.VI_minus then 1/2 else -(1/2)

/-- Running total after the five additive blocks, missing-aware. -/
def strength5O (r : ORow) : ℚ :=
  trendContribO r + adxContribO r + rsiContribO r + macdContribO r + vortexContribO r

/-- Volume/money-flow amplifier, missing-aware (the running total itself is
always an actual number). -/
def strength6O (r : ORow) : ℚ :=
  if optGt r.Volume_Ratio (some (3/2)) && optGt r.CMF (some 0) then
    (if strength5O r > 0 then strength5O r * (6/5) else strength5O r * (4/5))
  else strength5O r

/-- Support/resistance block, missing-aware. -/
def srContribO (r : ORow) : ℚ :=
  if optLt r.Close r.S1 then 1/2 else if optGt r.Close r.R1 then -(1/2) else 0

/-- Running total after the support/resistance step, missing-aware. -/
def strength7O (r : ORow) : ℚ :=
  strength6O r + srContribO r

/-- `get_signal_strength` on a row with possibly missing values: the ATR
dampener fires only when ATR/close is an actual number above 0.02. -/
def get_signal_strength_opt (r : ORow) : ℚ :=
  if optGt (optDiv r.ATR r.Close) (some (1/50)) then strength7O r * (4/5)
  else strength7O r

lemma signalFor_cases (s : ℚ) :
    signalFor s = "Strong Buy" ∨ signalFor s = "Buy" ∨ signalFor s = "Hold" ∨
      signalFor s = "Sell" ∨ signalFor s = "Strong Sell" := by
  by_cases c1 : 5/2 < s
  · exact Or.inl (signalFor_eq_strong_buy s c1)
  · by_cases c2 : 1 < s
    · exact Or.inr (Or.inl (signalFor_eq_buy s c2 (not_lt.mp c1)))
    · by_cases c3 : -1 ≤ s
      · exact Or.inr (Or.inr (Or.inl (signalFor_eq_hold s c3 (not_lt.mp c2))))
      · by_cases c4 : -(5/2) ≤ s
        · exact Or.inr (Or.inr (Or.inr (Or.inl
            (signalFor_eq_sell s c4 (not_le.mp c3)))))
        · exact Or.inr (Or.inr (Or.inr (Or.inr
            (signalFor_eq_strong_sell s (not_le.mp c4)))))

/-- Row with SMA_50 missing (as on the first 49 rows of any series) and the
other indicators bullish. -/
def c3row : ORow :=
  ⟨some 100, some 90, none, some 30, some 20, some 10, some 50, some 1,
    some (1/2), some (11/10), some (9/10), some 1, some (1/10), some 95,
    some 105, some 1⟩

/-- Counterexample to C3: a row whose required SMA_50 field is missing is
nevertheless scored — it gets signal strength 2.5 and category Buy, rather
than failing with a MissingIndicatorData condition and being skipped. -/
theorem C3_counterexample_missing_field_still_scored :
    c3row.SMA_50 = none ∧ get_signal_strength_opt c3row = 5/2 ∧
    signalFor (get_signal_strength_opt c3row) = "Buy" := by
  have h : get_signal_strength_opt c3row = 5/2 := by
    norm_num [get_signal_strength_opt, strength7O, strength6O, strength5O,
      trendContribO, adxContribO, rsiContribO, macdContribO, vortexContribO,
      srContribO, optGt, optLt, optDiv, c3row]
  exact ⟨rfl, h, by rw [h]; exact signalFor_eq_buy (5/2) (by norm_num) (by norm_num)⟩

/-- C3 as amended: scoring never fails on missing data.  A comparison with a
missing operand is false, so a missing field contributes 0 through the
untaken branches (trend, ADX, RSI, support/resistance, ATR dampener) or the
unconditional else weight (MACD −1, Vortex −0.5), and every row receives one
of the five categories. -/
theorem C3_amended_missing_fields_fall_through (r : ORow) :
    (r.SMA_20 = none → trendContribO r = 0) ∧
    (r.ADX = none → adxContribO r = 0) ∧
    (r.RSI = none → rsiContribO r = 0) ∧
    (r.MACD = none → macdContribO r = -1) ∧
    (r.VI_plus = none → vortexContribO r = -(1/2)) ∧
    (r.Close = none → srContribO r = 0) ∧
    (r.ATR = none → get_signal_strength_opt r = strength7O r) ∧
    (signalFor (get_signal_strength_opt r) = "Strong Buy" ∨
      signalFor (get_signal_strength_opt r) = "Buy" ∨
      signalFor (get_signal_strength_opt r) = "Hold" ∨
      signalFor (get_signal_strength_opt r) = "Sell" ∨
      signalFor (get_signal_strength_opt r) = "Strong Sell") := by
  refine ⟨?_, ?_, ?_, ?_, ?_, ?_, ?_, signalFor_cases _⟩
  · intro h; unfold trendContribO optLt optGt; rw [h]
    rcases r.Close with _ | c <;> simp
  · intro h; unfold adxContribO optGt; rw [h]
    simp
  · intro h; unfold rsiContribO optLt optGt; rw [h]
    simp
  · intro h; unfold macdContribO optGt; rw [h]
    rcases r.MACD_Signal with _ | c <;> simp
  · intro h; unfold vortexContribO optGt; rw [h]
    rcases r.VI_minus with _ | c <;> simp
  · intro h; unfold srContribO optLt optGt; rw [h]
    rcases r.S1 with _ | c <;> rcases r.R1 with _ | c2 <;> simp
  · intro h; unfold get_signal_strength_opt optDiv optGt; rw [h]
    rcases r.Close with _ | c <;> simp

/-- Row with every indicator missing. -/
def c3rowAllNone : ORow :=
  ⟨none, none, none, none, none, none, none, none, none, none, none, none,
    none, none, none, none⟩

/-- Witness for the amended C3 at the all-missing row. -/
theorem C3_amended_missing_fields_fall_through_witness :
    trendContribO c3rowAllNone = 0 ∧ adxContribO c3rowAllNone = 0 ∧
    rsiContribO c3rowAllNone = 0 ∧ macdContribO c3rowAllNone = -1 ∧
    vortexContribO c3rowAllNone = -(1/2) ∧ srContribO c3rowAllNone = 0 ∧
    get_signal_strength_opt c3rowAllNone = strength7O c3rowAllNone ∧
    (signalFor (get_signal_strength_opt c3rowAllNone) = "Strong Buy" ∨
      signalFor (get_signal_strength_opt c3rowAllNone) = "Buy" ∨
      signalFor (get_signal_strength_opt c3rowAllNone) = "Hold" ∨
      signalFor (get_signal_strength_opt c3rowAllNone) = "Sell" ∨
      signalFor (get_signal_strength_opt c3rowAllNone) = "Strong Sell") := by
  have h := C3_amended_missing_fields_fall_through c3rowAllNone
  exact ⟨h.1 rfl, h.2.1 rfl, h.2.2.1 rfl, h.2.2.2.1 rfl, h.2.2.2.2.1 rfl,
    h.2.2.2.2.2.1 rfl, h.2.2.2.2.2.2.1 rfl, h.2.2.2.2.2.2.2⟩

/-!
The retrieval cache of `src/data_collection/db_manager.py`.  The sqlite
table `stock_data` is modelled as a list of rows; dates and timestamps as
integers (days, resp. an abstract monotone clock).  `open` is a Lean
keyword, so that column is called `openP`.
-/

/-- One row of the `stock_data` table (schema of `_init_db`). -/
structure DBRow where
  symbol : String
  date : ℤ
  openP : ℚ
  high : ℚ
  low : ℚ
  close : ℚ
  volume : ℤ
  last_updated : ℤ
deriving DecidableEq

/-- One input bar (a row of the DataFrame handed to `save_stock_data`). -/
structure Bar where
  date : ℤ
  openP : ℚ
  high : ℚ
  low : ℚ
  close : ℚ
  volume : ℤ
deriving DecidableEq

/-- The WHERE clause of `get_stock_data`:
symbol = ? AND date BETWEEN ? AND ? (BETWEEN is inclusive on both ends). -/
def matchesQuery (sym : String) (s e : ℤ) (r : DBRow) : Bool :=
  decide (r.symbol = sym) && decide (s ≤ r.date) && decide (r.date ≤ e)

/-- ORDER BY date. -/
def dateLe (a b : DBRow) : Prop := a.date ≤ b.date

instance : DecidableRel dateLe := fun a b => Int.decLe a.date b.date

instance : IsTotal DBRow dateLe := ⟨fun a b => le_total a.date b.date⟩

instance : IsTrans DBRow dateLe := ⟨fun _ _ _ h1 h2 => le_trans h1 h2⟩

/-- `get_stock_data`: select the symbol's rows between the two dates,
ordered by date; an empty result is returned as None. -/
def get_stock_data (store : List DBRow) (sym : String) (s e : ℤ) :
    Option (List DBRow) :=
  let rows := List.insertionSort dateLe (store.filter (matchesQuery sym s e))
  if rows.isEmpty then none else some rows

/-- The row `save_stock_data` builds from one bar: the symbol column and a
fresh `last_updated` are attached. -/
def mkRow (sym : String) (now : ℤ) (b : Bar) : DBRow :=
  ⟨sym, b.date, b.openP, b.high, b.low, b.close, b.volume, now⟩

/-- `save_stock_data`: a None or empty frame is not written at all;
otherwise the frame is written with pandas `to_sql(if_exists='replace')`,
which drops the whole `stock_data` table and recreates it from the frame —
the resulting table holds exactly the new rows. -/
def save_stock_data (store : List DBRow) (sym : String)
    (data : Option (List Bar)) (now : ℤ) : List DBRow :=
  match data with
  | none => store
  | some [] => store
  | some bars => bars.map (mkRow sym now)

/-- SQL MAX aggregation step (NULL on an empty selection). -/
def maxOpt (acc : Option ℤ) (x : ℤ) : Option ℤ :=
  match acc with
  | none => some x
  | some y => some (max y x)

/-- MAX(date) over the symbol's rows. -/
def maxDate (store : List DBRow) (sym : String) : Option ℤ :=
  ((store.filter (fun r => decide (r.symbol = sym))).map (fun r => r.date)).foldl
    maxOpt none

/-- MAX(last_updated) over the symbol's rows. -/
def maxUpdated (store : List DBRow) (sym : String) : Option ℤ :=
  ((store.filter (fun r => decide (r.symbol = sym))).map
    (fun r => r.last_updated)).foldl maxOpt none

/-- The current instant in IST: a calendar day and the minute of that day. -/
structure ISTNow where
  day : ℤ
  minute : ℤ

/-- `is_data_fresh`: both MAX(date) and MAX(last_updated) must be non-NULL,
and the stored maximum date must reach the required date — two days back
before the 17:30 IST cutoff, one day back after it. -/
def is_data_fresh (store : List DBRow) (sym : String) (now : ISTNow) : Bool :=
  match maxDate store sym, maxUpdated store sym with
  | some d, some _ =>
    let required : ℤ := if now.minute < 17 * 60 + 30 then now.day - 2 else now.day - 1
    decide (d ≥ required)
  | _, _ => false

/-- C5: freshness holds iff a stored maximum date and a last_updated exist
and the maximum date reaches the cutoff-dependent required date; at 16:00
IST a latest date of today-2 is fresh, at 18:00 IST it is not. -/
theorem C5_freshness_iff (store : List DBRow) (sym : String) (now : ISTNow) :
    (is_data_fresh store sym now = true ↔
      ∃ d, maxDate store sym = some d ∧ maxUpdated store sym ≠ none ∧
        (if now.minute < 17 * 60 + 30 then now.day - 2 else now.day - 1) ≤ d) ∧
    (maxDate store sym = some (now.day - 2) → maxUpdated store sym ≠ none →
      (now.minute = 16 * 60 → is_data_fresh store sym now = true) ∧
      (now.minute = 18 * 60 → is_data_fresh store sym now = false)) := by
  have core : is_data_fresh store sym now = true ↔
      ∃ d, maxDate store sym = some d ∧ maxUpdated store sym ≠ none ∧
        (if now.minute < 17 * 60 + 30 then now.day - 2 else now.day - 1) ≤ d := by
    unfold is_data_fresh
    rcases hd : maxDate store sym with _ | d
    · simp [hd]
    · rcases hu : maxUpdated store sym with _ | u
      · simp [hd, hu]
      · simp only [hd, hu, decide_eq_true_eq]
        constructor
        · intro h; exact ⟨d, rfl, by simp, h⟩
        · rintro ⟨d2, hd2, _, h⟩
          cases Option.some.inj hd2
          exact h
  refine ⟨core, fun h1 h2 => ⟨fun hm => ?_, fun hm => ?_⟩⟩
  · rw [core]
    refine ⟨now.day - 2, h1, h2, ?_⟩
    rw [if_pos (by rw [hm]; norm_num)]
  · rw [Bool.eq_false_iff]
    intro hfresh
    rw [core] at hfresh
    rcases hfresh with ⟨d, hd, _, hle⟩
    rw [h1] at hd
    cases Option.some.inj hd
    rw [if_neg (by rw [hm]; norm_num)] at hle
    omega

/-- Concrete store used to witness C5: one TCS row dated two days before
day 100. -/
def c5store : List DBRow := [⟨"TCS", 98, 1, 1, 1, 1, 10, 500⟩]

/-- Witness for C5: at 16:00 IST the day-98 row is fresh for day 100, at
18:00 IST it is not. -/
theorem C5_freshness_iff_witness :
    is_data_fresh c5store "TCS" ⟨100, 16 * 60⟩ = true ∧
    is_data_fresh c5store "TCS" ⟨100, 18 * 60⟩ = false :=
  ⟨((C5_freshness_iff c5store "TCS" ⟨100, 16 * 60⟩).2 (by decide) (by decide)).1 rfl,
    ((C5_freshness_iff c5store "TCS" ⟨100, 18 * 60⟩).2 (by decide) (by decide)).2 rfl⟩

/-- The TCS row on the books before the INFY write. -/
def c6tcsRow : DBRow := ⟨"TCS", 10, 1, 2, 0, 1, 100, 50⟩

/-- The INFY bar that gets written. -/
def c6infyBar : Bar := ⟨11, 5, 6, 4, 5, 200⟩

/-- C6 fails on the code: `to_sql(..., if_exists='replace')` drops the whole
table, so writing INFY erases the TCS series — before the write TCS is
readable, afterwards it is gone. -/
theorem C6_put_erases_other_symbols :
    save_stock_data [c6tcsRow] "INFY" (some [c6infyBar]) 60 =
      [⟨"INFY", 11, 5, 6, 4, 5, 200, 60⟩] ∧
    get_stock_data [c6tcsRow] "TCS" 0 20 = some [c6tcsRow] ∧
    get_stock_data (save_stock_data [c6tcsRow] "INFY" (some [c6infyBar]) 60)
      "TCS" 0 20 = none := by
  refine ⟨rfl, ?_, ?_⟩ <;> decide

lemma map_date_mkRow (sym : String) (now : ℤ) (bars : List Bar) :
    (bars.map (mkRow sym now)).map (fun r => r.date) = bars.map (fun b => b.date) := by
  simp [mkRow]

lemma save_nonempty_eq (store : List DBRow) (sym : String) (bars : List Bar)
    (now : ℤ) (hne : bars ≠ []) :
    save_stock_data store sym (some bars) now = bars.map (mkRow sym now) := by
  rcases bars with _ | ⟨b, bs⟩
  · exact absurd rfl hne
  · rfl

/-- C7: writing a duplicate-free series and immediately reading an
encompassing range returns exactly the written rows in strictly ascending
date order; and in general a read returns only in-range rows of the queried
symbol, sorted, with None exactly when no stored row matches. -/
theorem C7_roundtrip_and_read_path (store : List DBRow) (sym : String)
    (bars : List Bar) (ds de now : ℤ)
    (hne : bars ≠ [])
    (hnd : (bars.map (fun b => b.date)).Nodup)
    (hin : ∀ b ∈ bars, ds ≤ b.date ∧ b.date ≤ de) :
    (∃ l, get_stock_data (save_stock_data store sym (some bars) now) sym ds de =
        some l ∧
      l.Perm (bars.map (mkRow sym now)) ∧
      l.Pairwise (fun a b => a.date < b.date)) ∧
    (∀ store2 sym2 s2 e2 l,
      get_stock_data store2 sym2 s2 e2 = some l →
      l ≠ [] ∧ l.Pairwise dateLe ∧
      ∀ r ∈ l, r ∈ store2 ∧ r.symbol = sym2 ∧ s2 ≤ r.date ∧ r.date ≤ e2) ∧
    (∀ store2 sym2 s2 e2,
      get_stock_data store2 sym2 s2 e2 = none ↔
      ∀ r ∈ store2, ¬(r.symbol = sym2 ∧ s2 ≤ r.date ∧ r.date ≤ e2)) := by
  refine ⟨?_, ?_, ?_⟩
  · rw [save_nonempty_eq store sym bars now hne]
    have hfilter : (bars.map (mkRow sym now)).filter (matchesQuery sym ds de) =
        bars.map (mkRow sym now) := by
      rw [List.filter_eq_self]
      intro r hr
      rcases List.mem_map.mp hr with ⟨b, hb, rfl⟩
      simp only [matchesQuery, mkRow, Bool.and_eq_true, decide_eq_true_eq]
      exact ⟨⟨by trivial, (hin b hb).1⟩, (hin b hb).2⟩
    have hperm : (List.insertionSort dateLe (bars.map (mkRow sym now))).Perm
        (bars.map (mkRow sym now)) := List.perm_insertionSort dateLe _
    have hnonnil : List.insertionSort dateLe (bars.map (mkRow sym now)) ≠ [] := by
      intro hnil
      have : bars.map (mkRow sym now) = [] := (hnil ▸ hperm).symm.eq_nil
      exact hne (List.map_eq_nil_iff.mp this)
    refine ⟨List.insertionSort dateLe (bars.map (mkRow sym now)), ?_, hperm, ?_⟩
    · unfold get_stock_data
      rw [hfilter, if_neg (by simpa [List.isEmpty_iff] using hnonnil)]
    · have hle : (List.insertionSort dateLe (bars.map (mkRow sym now))).Pairwise
          dateLe := List.sorted_insertionSort dateLe _
      have hnd2 : ((List.insertionSort dateLe
          (bars.map (mkRow sym now))).map (fun r => r.date)).Nodup := by
        refine (hperm.map (fun r => r.date)).nodup_iff.mpr ?_
        rw [map_date_mkRow]
        exact hnd
      have hne2 : (List.insertionSort dateLe (bars.map (mkRow sym now))).Pairwise
          (fun a b => a.date ≠ b.date) := by
        rw [List.Nodup, List.pairwise_map] at hnd2
        exact hnd2
      exact (hle.and hne2).imp (fun h => lt_of_le_of_ne h.1 h.2)
  · intro store2 sym2 s2 e2 l hl
    unfold get_stock_data at hl
    by_cases hemp :
        (List.insertionSort dateLe (store2.filter (matchesQuery sym2 s2 e2))).isEmpty
    · rw [if_pos hemp] at hl
      exact absurd hl (by simp)
    · rw [if_neg hemp] at hl
      cases Option.some.inj hl
      refine ⟨by simpa [List.isEmpty_iff] using hemp,
        List.sorted_insertionSort dateLe _, fun r hr => ?_⟩
      have : r ∈ store2.filter (matchesQuery sym2 s2 e2) :=
        (List.mem_insertionSort dateLe).mp hr
      have hm := List.mem_filter.mp this
      have hq := hm.2
      simp only [matchesQuery, Bool.and_eq_true, decide_eq_true_eq] at hq
      exact ⟨hm.1, hq.1.1, hq.1.2, hq.2⟩
  · intro store2 sym2 s2 e2
    unfold get_stock_data
    constructor
    · intro h r hr hq
      by_cases hemp :
          (List.insertionSort dateLe (store2.filter (matchesQuery sym2 s2 e2))).isEmpty
      · have hnil : store2.filter (matchesQuery sym2 s2 e2) = [] := by
          have := List.isEmpty_iff.mp hemp
          exact (this ▸ List.perm_insertionSort dateLe
            (store2.filter (matchesQuery sym2 s2 e2))).symm.eq_nil
        have : r ∈ store2.filter (matchesQuery sym2 s2 e2) := by
          rw [List.mem_filter]
          refine ⟨hr, ?_⟩
          simp only [matchesQuery, Bool.and_eq_true, decide_eq_true_eq]
          exact ⟨⟨hq.1, hq.2.1⟩, hq.2.2⟩
        rw [hnil] at this
        exact absurd this (List.not_mem_nil r)
      · rw [if_neg hemp] at h
        exact absurd h (by simp)
    · intro h
      have hnil : store2.filter (matchesQuery sym2 s2 e2) = [] := by
        rw [List.filter_eq_nil_iff]
        intro r hr hq
        simp only [matchesQuery, Bool.and_eq_true, decide_eq_true_eq] at hq
        exact h r hr ⟨hq.1.1, hq.1.2, hq.2⟩
      rw [hnil]
      rfl

/-- Store contents before the C7 witness write. -/
def c7store : List DBRow := [⟨"OLD", 1, 1, 1, 1, 1, 1, 1⟩]

/-- Two bars written out of date order by the C7 witness. -/
def c7bars : List Bar := [⟨5, 1, 2, 0, 1, 10⟩, ⟨3, 2, 3, 1, 2, 20⟩]

/-- Witness for C7: the round-trip at a concrete two-bar series. -/
theorem C7_roundtrip_and_read_path_witness :
    ∃ l, get_stock_data (save_stock_data c7store "TCS" (some c7bars) 7)
        "TCS" 0 10 = some l ∧
      l.Perm (c7bars.map (mkRow "TCS" 7)) ∧
      l.Pairwise (fun a b => a.date < b.date) :=
  (C7_roundtrip_and_read_path c7store "TCS" c7bars 0 10 7 (by decide) (by decide)
    (by decide)).1

/-- C10: a put of a missing or empty series leaves the persistent store
untouched — the same rows, the same reads, the same freshness verdicts. -/
theorem C10_empty_put_is_noop (store : List DBRow) (sym : String) (now : ℤ) :
    save_stock_data store sym none now = store ∧
    save_stock_data store sym (some []) now = store ∧
    (∀ sym2 s e, get_stock_data (save_stock_data store sym none now) sym2 s e =
      get_stock_data store sym2 s e) ∧
    (∀ sym2 s e, get_stock_data (save_stock_data store sym (some []) now) sym2 s e =
      get_stock_data store sym2 s e) ∧
    (∀ sym2 now2, is_data_fresh (save_stock_data store sym none now) sym2 now2 =
      is_data_fresh store sym2 now2) ∧
    (∀ sym2 now2, is_data_fresh (save_stock_data store sym (some []) now) sym2 now2 =
      is_data_fresh store sym2 now2) :=
  ⟨rfl, rfl, fun _ _ _ => rfl, fun _ _ _ => rfl, fun _ _ => rfl, fun _ _ => rfl⟩

/-!
The fallback resolver of `src/data_collection/nse_data_fetcher.py`.
Timestamps are integer days; the market-data provider is a function from
(ticker, period) to either a provider error or a list of bars; the
calendar arithmetic `pd.Timestamp.now() - pd.DateOffset(months=n)` is a
parameter `mB` giving the timestamp n months before now.
-/

/-- A provider: `ticker.history(period)` either raises or returns a
(possibly empty) frame. -/
abbrev Hist : Type := String → String → Except Unit (List Bar)

/-- One fetch attempt as the loop of `fetch_stock_data` sees it: a raised
provider error or an empty frame both mean "continue". -/
def attemptOk (hist : Hist) (t p : String) : Option (List Bar) :=
  match hist t p with
  | Except.error _ => none
  | Except.ok l => if l.isEmpty then none else some l

/-- Start of the trim window: now minus 3 months for a "3mo" default
window, now minus 1 month for "1mo", and now minus 90 days otherwise. -/
def trimStart (dflt : String) (now : ℤ) (mB : ℕ → ℤ) : ℤ :=
  if dflt = "3mo" then mB 3
  else if dflt = "1mo" then mB 1
  else now - 90

/-- `stock_data.loc[start_date:end_date]`: keep the bars between the trim
start and now, inclusive. -/
def trimTo (dflt : String) (now : ℤ) (mB : ℕ → ℤ) (l : List Bar) : List Bar :=
  l.filter (fun b => decide (trimStart dflt now mB ≤ b.date) && decide (b.date ≤ now))

/-- The period loop of `fetch_stock_data`: first non-empty attempt wins,
trimmed when its period is not the default one. -/
def tryPeriods (hist : Hist) (t : String) (dflt : String) (now : ℤ)
    (mB : ℕ → ℤ) : List String → List Bar × Option String
  | [] => ([], none)
  | p :: ps =>
    match attemptOk hist t p with
    | some l => ((if p = dflt then l else trimTo dflt now mB l), some p)
    | none => tryPeriods hist t dflt now mB ps

/-- `fetch_stock_data`: try the default window, then year-to-date, one
year, and the maximum available history. -/
def fetch_stock_data (hist : Hist) (t : String) (dflt : String) (now : ℤ)
    (mB : ℕ → ℤ) : List Bar × Option String :=
  tryPeriods hist t dflt now mB [dflt, "ytd", "1y", "max"]

/-- Python's `pat in s` on the underlying characters. -/
def containsAux (pat : List Char) : List Char → Bool
  | [] => pat.isEmpty
  | c :: cs => pat.isPrefixOf (c :: cs) || containsAux pat cs

/-- Substring test, as `'.NS' in symbol`. -/
def containsSub (s pat : String) : Bool := containsAux pat.data s.data

/-- Python's `str.replace`: scan left to right, replacing every
non-overlapping occurrence; the fuel is the string length. -/
def replaceFuel (pat rep : List Char) : ℕ → List Char → List Char
  | 0, s => s
  | _ + 1, [] => []
  | n + 1, c :: cs =>
    if pat.isPrefixOf (c :: cs) then
      rep ++ replaceFuel pat rep n (List.drop (pat.length - 1) cs)
    else c :: replaceFuel pat rep n cs

/-- `symbol.replace(pat, rep)` for a non-empty pattern. -/
def replaceStr (s pat rep : String) : String :=
  String.mk (replaceFuel pat.data rep.data s.data.length s.data)

/-- The final base-symbol attempt of `fetch_nifty50_data`: strip the
exchange suffixes and run the full period chain once more. -/
def resolveBase (hist : Hist) (dflt : String) (now : ℤ) (mB : ℕ → ℤ)
    (symbol : String) : Option (String × List Bar) :=
  if (fetch_stock_data hist (replaceStr (replaceStr symbol ".NS" "") ".BO" "")
      dflt now mB).1.isEmpty then none
  else some (replaceStr (replaceStr symbol ".NS" "") ".BO" "",
    (fetch_stock_data hist (replaceStr (replaceStr symbol ".NS" "") ".BO" "")
      dflt now mB).1)

/-- The per-symbol body of `fetch_nifty50_data`: the primary listing first;
on a fully empty chain the alternate-exchange listing; on a still empty
chain the bare symbol; None when everything came back empty. -/
def resolveSymbol (hist : Hist) (dflt : String) (now : ℤ) (mB : ℕ → ℤ)
    (symbol : String) : Option (String × List Bar) :=
  if (fetch_stock_data hist symbol dflt now mB).1.isEmpty then
    if containsSub symbol ".NS" then
      if (fetch_stock_data hist (replaceStr symbol ".NS" ".BO")
          dflt now mB).1.isEmpty then
        resolveBase hist dflt now mB symbol
      else
        some (replaceStr symbol ".NS" ".BO",
          (fetch_stock_data hist (replaceStr symbol ".NS" ".BO") dflt now mB).1)
    else if containsSub symbol ".BO" then
      if (fetch_stock_data hist (replaceStr symbol ".BO" ".NS")
          dflt now mB).1.isEmpty then
        resolveBase hist dflt now mB symbol
      else
        some (replaceStr symbol ".BO" ".NS",
          (fetch_stock_data hist (replaceStr symbol ".BO" ".NS") dflt now mB).1)
    else resolveBase hist dflt now mB symbol
  else some (symbol, (fetch_stock_data hist symbol dflt now mB).1)

/-- The per-symbol loop of `fetch_nifty50_data`: symbols that resolve
contribute their series under the listing that supplied it, symbols that do
not are skipped. -/
def fetch_nifty50_data (hist : Hist) (dflt : String) (now : ℤ) (mB : ℕ → ℤ)
    (symbols : List String) : List (String × List Bar) :=
  symbols.filterMap (resolveSymbol hist dflt now mB)

/-- Point update of a provider, used to state that an erroring attempt acts
exactly like an empty one. -/
def updateHist (hist : Hist) (t p : String) (v : Except Unit (List Bar)) : Hist :=
  fun t2 p2 => if t2 = t ∧ p2 = p then v else hist t2 p2

/-- C8 as amended: the windows are tried in the fixed order, the first
non-empty attempt supplies the series and the reported window, and a
series from a non-default window is trimmed to the window ending at now
which starts 3 months back when the default is "3mo", 1 month back when it
is "1mo", and 90 days back for any other default. -/
theorem C8_amended_first_window_with_code_trim (hist : Hist) (t dflt : String)
    (now : ℤ) (mB : ℕ → ℤ) :
    (∀ l, attemptOk hist t dflt = some l →
      fetch_stock_data hist t dflt now mB = (l, some dflt)) ∧
    (attemptOk hist t dflt = none → ∀ l, attemptOk hist t "ytd" = some l →
      fetch_stock_data hist t dflt now mB = (trimTo dflt now mB l, some "ytd")) ∧
    (attemptOk hist t dflt = none → attemptOk hist t "ytd" = none →
      ∀ l, attemptOk hist t "1y" = some l →
      fetch_stock_data hist t dflt now mB = (trimTo dflt now mB l, some "1y")) ∧
    (attemptOk hist t dflt = none → attemptOk hist t "ytd" = none →
      attemptOk hist t "1y" = none → ∀ l, attemptOk hist t "max" = some l →
      fetch_stock_data hist t dflt now mB = (trimTo dflt now mB l, some "max")) ∧
    (attemptOk hist t dflt = none → attemptOk hist t "ytd" = none →
      attemptOk hist t "1y" = none → attemptOk hist t "max" = none →
      fetch_stock_data hist t dflt now mB = ([], none)) ∧
    (∀ l b, b ∈ trimTo dflt now mB l ↔
      b ∈ l ∧ trimStart dflt now mB ≤ b.date ∧ b.date ≤ now) ∧
    (dflt = "3mo" → trimStart dflt now mB = mB 3) ∧
    (dflt = "1mo" → trimStart dflt now mB = mB 1) ∧
    (dflt ≠ "3mo" → dflt ≠ "1mo" → trimStart dflt now mB = now - 90) := by
  refine ⟨?_, ?_, ?_, ?_, ?_, ?_, ?_, ?_, ?_⟩
  · intro l hl
    unfold fetch_stock_data
    simp only [tryPeriods, hl, if_pos]
  · intro h0 l hl
    by_cases hyd : "ytd" = dflt
    · rw [← hyd] at h0; rw [h0] at hl; exact absurd hl (by simp)
    · unfold fetch_stock_data
      simp only [tryPeriods, h0, hl, if_neg hyd]
  · intro h0 h1 l hl
    by_cases hyd : "1y" = dflt
    · rw [← hyd] at h0; rw [h0] at hl; exact absurd hl (by simp)
    · unfold fetch_stock_data
      simp only [tryPeriods, h0, h1, hl, if_neg hyd]
  · intro h0 h1 h2 l hl
    by_cases hyd : "max" = dflt
    · rw [← hyd] at h0; rw [h0] at hl; exact absurd hl (by simp)
    · unfold fetch_stock_data
      simp only [tryPeriods, h0, h1, h2, hl, if_neg hyd]
  · intro h0 h1 h2 h3
    unfold fetch_stock_data
    simp only [tryPeriods, h0, h1, h2, h3]
  · intro l b
    simp [trimTo, List.mem_filter, and_assoc]
  · intro h; subst h; rfl
  · intro h; subst h; rfl
  · intro h1 h2; unfold trimStart; rw [if_neg h1, if_neg h2]

/-- "now minus n months" calendar used by the C8 witness and
counterexample: a month is 31 days, now is day 1000. -/
def c8mB : ℕ → ℤ := fun n => 1000 - 31 * (n : ℤ)

/-- Provider that only has data for the maximum window. -/
def c8whist : Hist := fun _ p =>
  if p = "max" then Except.ok [⟨950, 1, 1, 1, 1, 1⟩, ⟨700, 1, 1, 1, 1, 1⟩]
  else Except.ok []

/-- Witness for the amended C8: with data only under "max" and a "3mo"
default, the result is the series cut to the 3 months ending now and the
reported window is "max". -/
theorem C8_amended_first_window_with_code_trim_witness :
    fetch_stock_data c8whist "X" "3mo" 1000 c8mB =
      ([⟨950, 1, 1, 1, 1, 1⟩], some "max") ∧
    c8mB 3 ≤ 950 ∧ (950 : ℤ) ≤ 1000 ∧ c8mB 3 > 700 := by
  have h := (C8_amended_first_window_with_code_trim c8whist "X" "3mo" 1000 c8mB).2.2.2.1
    (by decide) (by decide) (by decide)
    [⟨950, 1, 1, 1, 1, 1⟩, ⟨700, 1, 1, 1, 1, 1⟩] (by decide)
  rw [h]
  decide

/-- Provider that only has data for the one-year window: bars at days 880
and 990. -/
def c8hist : Hist := fun _ p =>
  if p = "1y" then Except.ok [⟨880, 1, 1, 1, 1, 1⟩, ⟨990, 1, 1, 1, 1, 1⟩]
  else Except.ok []

/-- Counterexample to C8 as stated: with a default window of "6mo"
supplied by the "1y" probe, the bar at day 880 lies inside the default
window's duration ending now (6 months before day 1000 is day 814 under
the witness calendar), yet the code drops it — the trim is a fixed 90
days, not the default window's duration. -/
theorem C8_counterexample_90_day_trim :
    fetch_stock_data c8hist "X" "6mo" 1000 c8mB =
      ([⟨990, 1, 1, 1, 1, 1⟩], some "1y") ∧
    c8mB 6 ≤ 880 ∧ (880 : ℤ) ≤ 1000 ∧
    (⟨880, 1, 1, 1, 1, 1⟩ : Bar) ∉ (fetch_stock_data c8hist "X" "6mo" 1000 c8mB).1 := by
  decide

/-- C9: the alternate listing (.NS swapped to .BO or .BO swapped to .NS) is
consulted only when the primary listing's whole window chain came back
empty, the bare symbol only when the alternate — in either direction, or a
suffix-free symbol — is also empty, every listing re-runs the full window
chain, an erroring attempt behaves exactly like an empty one, and a fully
exhausted symbol is skipped without disturbing the other symbols of the
scan. -/
theorem C9_listing_escalation (hist : Hist) (dflt : String) (now : ℤ)
    (mB : ℕ → ℤ) (symbol : String) :
    ((fetch_stock_data hist symbol dflt now mB).1.isEmpty = false →
      resolveSymbol hist dflt now mB symbol =
        some (symbol, (fetch_stock_data hist symbol dflt now mB).1)) ∧
    ((fetch_stock_data hist symbol dflt now mB).1.isEmpty = true →
      containsSub symbol ".NS" = true →
      (fetch_stock_data hist (replaceStr symbol ".NS" ".BO")
        dflt now mB).1.isEmpty = false →
      resolveSymbol hist dflt now mB symbol =
        some (replaceStr symbol ".NS" ".BO",
          (fetch_stock_data hist (replaceStr symbol ".NS" ".BO") dflt now mB).1)) ∧
    ((fetch_stock_data hist symbol dflt now mB).1.isEmpty = true →
      containsSub symbol ".NS" = false → containsSub symbol ".BO" = true →
      (fetch_stock_data hist (replaceStr symbol ".BO" ".NS")
        dflt now mB).1.isEmpty = false →
      resolveSymbol hist dflt now mB symbol =
        some (replaceStr symbol ".BO" ".NS",
          (fetch_stock_data hist (replaceStr symbol ".BO" ".NS") dflt now mB).1)) ∧
    ((fetch_stock_data hist symbol dflt now mB).1.isEmpty = true →
      containsSub symbol ".NS" = true →
      (fetch_stock_data hist (replaceStr symbol ".NS" ".BO")
        dflt now mB).1.isEmpty = true →
      (fetch_stock_data hist (replaceStr (replaceStr symbol ".NS" "") ".BO" "")
        dflt now mB).1.isEmpty = false →
      resolveSymbol hist dflt now mB symbol =
        some (replaceStr (replaceStr symbol ".NS" "") ".BO" "",
          (fetch_stock_data hist (replaceStr (replaceStr symbol ".NS" "") ".BO" "")
            dflt now mB).1)) ∧
    ((fetch_stock_data hist symbol dflt now mB).1.isEmpty = true →
      containsSub symbol ".NS" = true →
      (fetch_stock_data hist (replaceStr symbol ".NS" ".BO")
        dflt now mB).1.isEmpty = true →
      (fetch_stock_data hist (replaceStr (replaceStr symbol ".NS" "") ".BO" "")
        dflt now mB).1.isEmpty = true →
      resolveSymbol hist dflt now mB symbol = none) ∧
    ((fetch_stock_data hist symbol dflt now mB).1.isEmpty = true →
      containsSub symbol ".NS" = false → containsSub symbol ".BO" = true →
      (fetch_stock_data hist (replaceStr symbol ".BO" ".NS")
        dflt now mB).1.isEmpty = true →
      (fetch_stock_data hist (replaceStr (replaceStr symbol ".NS" "") ".BO" "")
        dflt now mB).1.isEmpty = false →
      resolveSymbol hist dflt now mB symbol =
        some (replaceStr (replaceStr symbol ".NS" "") ".BO" "",
          (fetch_stock_data hist (replaceStr (replaceStr symbol ".NS" "") ".BO" "")
            dflt now mB).1)) ∧
    ((fetch_stock_data hist symbol dflt now mB).1.isEmpty = true →
      containsSub symbol ".NS" = false → containsSub symbol ".BO" = true →
      (fetch_stock_data hist (replaceStr symbol ".BO" ".NS")
        dflt now mB).1.isEmpty = true →
      (fetch_stock_data hist (replaceStr (replaceStr symbol ".NS" "") ".BO" "")
        dflt now mB).1.isEmpty = true →
      resolveSymbol hist dflt now mB symbol = none) ∧
    ((fetch_stock_data hist symbol dflt now mB).1.isEmpty = true →
      containsSub symbol ".NS" = false → containsSub symbol ".BO" = false →
      (fetch_stock_data hist (replaceStr (replaceStr symbol ".NS" "") ".BO" "")
        dflt now mB).1.isEmpty = false →
      resolveSymbol hist dflt now mB symbol =
        some (replaceStr (replaceStr symbol ".NS" "") ".BO" "",
          (fetch_stock_data hist (replaceStr (replaceStr symbol ".NS" "") ".BO" "")
            dflt now mB).1)) ∧
    ((fetch_stock_data hist symbol dflt now mB).1.isEmpty = true →
      containsSub symbol ".NS" = false → containsSub symbol ".BO" = false →
      (fetch_stock_data hist (replaceStr (replaceStr symbol ".NS" "") ".BO" "")
        dflt now mB).1.isEmpty = true →
      resolveSymbol hist dflt now mB symbol = none) ∧
    (∀ t p, hist t p = Except.error () →
      ∀ t2 d2, fetch_stock_data (updateHist hist t p (Except.ok [])) t2 d2 now mB =
        fetch_stock_data hist t2 d2 now mB) ∧
    (∀ rest, resolveSymbol hist dflt now mB symbol = none →
      fetch_nifty50_data hist dflt now mB (symbol :: rest) =
        fetch_nifty50_data hist dflt now mB rest) ∧
    (∀ rest kv, resolveSymbol hist dflt now mB symbol = some kv →
      fetch_nifty50_data hist dflt now mB (symbol :: rest) =
        kv :: fetch_nifty50_data hist dflt now mB rest) := by
  refine ⟨?_, ?_, ?_, ?_, ?_, ?_, ?_, ?_, ?_, ?_, ?_, ?_⟩
  · intro h1
    unfold resolveSymbol
    simp only [h1, Bool.false_eq_true, if_false]
  · intro h1 h2 h3
    unfold resolveSymbol
    simp only [h1, h2, h3, if_true, Bool.false_eq_true, if_false]
  · intro h1 h2 h3 h4
    unfold resolveSymbol
    simp only [h1, h2, h3, h4, if_true, Bool.false_eq_true, if_false]
  · intro h1 h2 h3 h4
    unfold resolveSymbol resolveBase
    simp only [h1, h2, h3, h4, if_true, Bool.false_eq_true, if_false]
  · intro h1 h2 h3 h4
    unfold resolveSymbol resolveBase
    simp only [h1, h2, h3, h4, if_true]
  · intro h1 h2 h3 h4 h5
    unfold resolveSymbol resolveBase
    simp only [h1, h2, h3, h4, h5, if_true, Bool.false_eq_true, if_false]
  · intro h1 h2 h3 h4 h5
    unfold resolveSymbol resolveBase
    simp only [h1, h2, h3, h4, h5, if_true, Bool.false_eq_true, if_false]
  · intro h1 h2 h3 h4
    unfold resolveSymbol resolveBase
    simp only [h1, h2, h3, h4, if_true, Bool.false_eq_true, if_false]
  · intro h1 h2 h3 h4
    unfold resolveSymbol resolveBase
    simp only [h1, h2, h3, h4, if_true, Bool.false_eq_true, if_false]
  · intro t p herr t2 d2
    have key : ∀ p2, attemptOk (updateHist hist t p (Except.ok [])) t2 p2 =
        attemptOk hist t2 p2 := by
      intro p2
      unfold attemptOk updateHist
      by_cases hc : t2 = t ∧ p2 = p
      · rw [if_pos hc, hc.1, hc.2, herr]
        rfl
      · rw [if_neg hc]
    have main : ∀ ps, tryPeriods (updateHist hist t p (Except.ok [])) t2 d2 now mB ps =
        tryPeriods hist t2 d2 now mB ps := by
      intro ps
      induction ps with
      | nil => rfl
      | cons q qs ih => simp only [tryPeriods, key q, ih]
    exact main _
  · intro rest hnone
    unfold fetch_nifty50_data
    rw [List.filterMap_cons_none hnone]
  · intro rest kv hsome
    unfold fetch_nifty50_data
    rw [List.filterMap_cons_some hsome]

/-- Calendar for the C9 witness. -/
def c9mB : ℕ → ℤ := fun n => 1000 - 31 * (n : ℤ)

/-- Provider with data only under the bare ticker "X": both exchange
listings error out on every window. -/
def c9hist : Hist := fun t _ =>
  if t = "X" then Except.ok [⟨950, 1, 1, 1, 1, 1⟩] else Except.error ()

/-- Provider with data only under the bare ticker "Y": both exchange
listings error out on every window. -/
def c9histB : Hist := fun t _ =>
  if t = "Y" then Except.ok [⟨960, 1, 1, 1, 1, 1⟩] else Except.error ()

/-- Provider where every attempt raises. -/
def c9histNone : Hist := fun _ _ => Except.error ()

/-- Witness for C9, both swap directions and the exhausted skip: for
"X.NS" the swapped "X.BO" chain is also empty and the bare "X" supplies the
data; for "Y.BO" the swapped "Y.NS" chain is also empty and the bare "Y"
supplies the data; for "Z.BO" every listing-and-window attempt errors and
the symbol resolves to none. -/
theorem C9_listing_escalation_witness :
    resolveSymbol c9hist "3mo" 1000 c9mB "X.NS" =
      some ("X", [⟨950, 1, 1, 1, 1, 1⟩]) ∧
    resolveSymbol c9histB "3mo" 1000 c9mB "Y.BO" =
      some ("Y", [⟨960, 1, 1, 1, 1, 1⟩]) ∧
    resolveSymbol c9histNone "3mo" 1000 c9mB "Z.BO" = none := by
  refine ⟨?_, ?_, ?_⟩
  · rw [(C9_listing_escalation c9hist "3mo" 1000 c9mB "X.NS").2.2.2.1
      (by decide) (by decide) (by decide) (by decide)]
    decide
  · rw [(C9_listing_escalation c9histB "3mo" 1000 c9mB "Y.BO").2.2.2.2.2.1
      (by decide) (by decide) (by decide) (by decide) (by decide)]
    decide
  · exact (C9_listing_escalation c9histNone "3mo" 1000 c9mB "Z.BO").2.2.2.2.2.2.1
      (by decide) (by decide) (by decide) (by decide) (by decide)

end SmartScan
